import Mathlib

/-!
Verification of `oss_src/util/cityhash_gl.cpp` (SFrame).

The file under study defines, in namespace `graphlab`:
  * `hash128(const flexible_type&)` and `hash64(const flexible_type&)`:
    pass-through adapters to the value's own digest methods `v.hash128()`
    and `v.hash()`;
  * `hash128(const std::vector<flexible_type>&)`: seeds with the hash of
    the element count and folds each element's 128-bit digest in order via
    `hash128_combine`;
  * `hash64(const std::vector<flexible_type>&)`: the 128→64 reduction of
    the 128-bit sequence digest;
  * `hash64_proportion_cutoff(double)`: converts a proportion in [0,1]
    into a 64-bit threshold.

The external primitives (`flexible_type::hash128`, `flexible_type::hash`,
`hash128_combine`, `hash64(uint128_t)`, and the integer-hash overload used
for the element count) are declared in headers that are not part of the
source under study; they appear here as parameters of the embedded
functions, so every theorem about the sequence hashers quantifies over
them.

For the cutoff function, the C++ computes
`uint64_t(proportion * double(uint64_t(1) << 63))`.  Every finite double
is a rational number, and multiplying a double `p ∈ [0,1]` by the exactly
representable power of two `2^63` is exact (pure exponent shift, no
overflow, and subnormal significands scale exactly); the subsequent
uint64 conversion truncates toward zero, which for a nonnegative value is
the floor.  Hence for `p ∈ [0,1]` the C++ value of `x_half` is exactly
`⌊p * 2^63⌋`, and we embed the proportion as a rational number.
-/

namespace CityHashGL

/-- A value of the dynamic `flexible_type`: opaque here except for its two
digest capabilities, the 128-bit `v.hash128()` and the 64-bit `v.hash()`. -/
structure FlexibleType where
  hash128 : ℕ
  hash : ℕ

/-- `uint128_t hash128(const flexible_type& v) { return v.hash128(); }` -/
def hash128_value (v : FlexibleType) : ℕ := v.hash128

/-- `uint64_t hash64(const flexible_type& v) { return v.hash(); }` -/
def hash64_value (v : FlexibleType) : ℕ := v.hash

/-- `uint128_t hash128(const std::vector<flexible_type>& v)`:
`uint128_t h = hash128(v.size()); for(const flexible_type& x : v)
h = hash128_combine(h, x.hash128()); return h;`.
`hash128Len` models the integer-hash overload applied to `v.size()` and
`combine` models `hash128_combine`; both are declared in headers outside
the source under study and are passed as parameters. -/
def hash128_vector (hash128Len : ℕ → ℕ) (combine : ℕ → ℕ → ℕ)
    (v : List FlexibleType) : ℕ :=
  v.foldl (fun h x => combine h x.hash128) (hash128Len v.length)

/-- `uint64_t hash64(const std::vector<flexible_type>& v)
{ return hash64(hash128(v)); }` where the outer `hash64` is the external
128→64-bit reduction `hash64(uint128_t)`, passed here as `hash64Of128`. -/
def hash64_vector (hash128Len : ℕ → ℕ) (combine : ℕ → ℕ → ℕ)
    (hash64Of128 : ℕ → ℕ) (v : List FlexibleType) : ℕ :=
  hash64Of128 (hash128_vector hash128Len combine v)

/-- The spec's description of the sequence hash as an explicit loop:
start from the seed and, for each element in order, update the running
hash with `combine`. -/
def hash128_vector_spec_loop (combine : ℕ → ℕ → ℕ) (h : ℕ) :
    List FlexibleType → ℕ
  | [] => h
  | x :: xs => hash128_vector_spec_loop combine (combine h x.hash128) xs

/-- The spec's formulation of `hash128` on a sequence: seed with the hash
of the element count, then fold each element's 128-bit digest in order. -/
def hash128_vector_spec (hash128Len : ℕ → ℕ) (combine : ℕ → ℕ → ℕ)
    (v : List FlexibleType) : ℕ :=
  hash128_vector_spec_loop combine (hash128Len v.length) v

/-- `std::numeric_limits<uint64_t>::max()` -/
def MAX_UINT64 : ℕ := 2 ^ 64 - 1

/-- `uint64_t x_half = uint64_t(proportion * double(uint64_t(1) << 63));`
For `proportion ∈ [0,1]` the double multiplication by `2^63` is exact and
the uint64 conversion truncates toward zero, so this equals
`⌊proportion * 2^63⌋` (see the header comment). -/
def x_half (proportion : ℚ) : ℕ := ⌊proportion * 2 ^ 63⌋.toNat

/-- `const uint64_t clip_0 = uint64_t(1) << 63;` -/
def clip_0 : ℕ := 2 ^ 63

/-- `const uint64_t clip_1 = std::numeric_limits<uint64_t>::max() - clip_0;` -/
def clip_1 : ℕ := MAX_UINT64 - clip_0

/-- `uint64_t hash64_proportion_cutoff(double proportion)` body:
`return std::min(clip_0, x_half) + std::min(clip_1, x_half);` -/
def hash64_proportion_cutoff (proportion : ℚ) : ℕ :=
  min clip_0 (x_half proportion) + min clip_1 (x_half proportion)

/-- Modelled from the spec: `DASSERT_GE(proportion, 0.0)` and
`DASSERT_LE(proportion, 1.0)` are assertion macros from
`logger/assertions.hpp`, which is not part of the source under study; per
the spec (§7) they are fatal assertion-style precondition checks that
terminate with a diagnostic rather than clamping.  The checked entry
point returns `Except`: an error for a violated bound, otherwise the
cutoff value. -/
def hash64_proportion_cutoff_checked (proportion : ℚ) : Except String ℕ :=
  if proportion < 0 then
    Except.error "DASSERT_GE(proportion, 0.0) violated"
  else if 1 < proportion then
    Except.error "DASSERT_LE(proportion, 1.0) violated"
  else
    Except.ok (hash64_proportion_cutoff proportion)

/-- The cutoff formula exactly as the spec states it in §4.3 steps 2–4:
`x_half` is the unsigned-64 truncation of `p * 2^63`, `clip0 = 2^63`,
`clip1 = MAX_UINT64 - 2^63 = 2^63 - 1`, result
`min(clip0, x_half) + min(clip1, x_half)`. -/
def cutoff_spec (p : ℚ) : ℕ :=
  min (2 ^ 63) (⌊p * 2 ^ 63⌋.toNat) + min (2 ^ 63 - 1) (⌊p * 2 ^ 63⌋.toNat)

/-- Helper: the spec's explicit loop is `List.foldl` of the combining step. -/
theorem spec_loop_eq_foldl (combine : ℕ → ℕ → ℕ) (h : ℕ)
    (v : List FlexibleType) :
    hash128_vector_spec_loop combine h v =
      v.foldl (fun a x => combine a x.hash128) h := by
  induction v generalizing h with
  | nil => rfl
  | cons x xs ih => simp only [hash128_vector_spec_loop, List.foldl, ih]

/-- Claim C1: the cutoff function is exact at both boundaries:
`hash64_proportion_cutoff 0 = 0` and
`hash64_proportion_cutoff 1 = MAX_UINT64 = 2^64 - 1`, with no overflow or
off-by-one at either end. -/
theorem cutoff_boundary_exact :
    hash64_proportion_cutoff 0 = 0 ∧
      hash64_proportion_cutoff 1 = MAX_UINT64 := by
  constructor <;>
    norm_num [hash64_proportion_cutoff, x_half, clip_0, clip_1, MAX_UINT64]

/-- Claim C2: for every proportion outside `[0, 1]`, the checked cutoff
(the `DASSERT_GE` / `DASSERT_LE` precondition checks, modelled from the
spec) fails fast with a diagnostic naming the violated bound, and never
returns a (possibly clamped) `ok` result. -/
theorem cutoff_precondition_violation (p : ℚ) (h : p < 0 ∨ 1 < p) :
    hash64_proportion_cutoff_checked p =
        Except.error "DASSERT_GE(proportion, 0.0) violated" ∨
      hash64_proportion_cutoff_checked p =
        Except.error "DASSERT_LE(proportion, 1.0) violated" := by
  rcases h with h | h
  · exact Or.inl (by simp [hash64_proportion_cutoff_checked, h])
  · have hnn : ¬p < 0 := not_lt.mpr (zero_le_one.trans h.le)
    exact Or.inr (by simp [hash64_proportion_cutoff_checked, hnn, h])

/-- Witness for Claim C2: checked cutoff at the spec's own examples
`-0.1` and `1.1`; in each case the result is an error, never an `ok`
value. -/
theorem cutoff_precondition_violation_witness :
    (hash64_proportion_cutoff_checked (-1 / 10) =
        Except.error "DASSERT_GE(proportion, 0.0) violated" ∨
      hash64_proportion_cutoff_checked (-1 / 10) =
        Except.error "DASSERT_LE(proportion, 1.0) violated") ∧
    (hash64_proportion_cutoff_checked (11 / 10) =
        Except.error "DASSERT_GE(proportion, 0.0) violated" ∨
      hash64_proportion_cutoff_checked (11 / 10) =
        Except.error "DASSERT_LE(proportion, 1.0) violated") :=
  ⟨cutoff_precondition_violation (-1 / 10) (Or.inl (by norm_num)),
    cutoff_precondition_violation (11 / 10) (Or.inr (by norm_num))⟩

/-- Claim C3: for every proportion `p ∈ [0, 1]`, the cutoff equals the
spec's formula `min(clip0, x_half) + min(clip1, x_half)` with `x_half`
the unsigned-64 truncation of `p * 2^63`, `clip0 = 2^63`, and
`clip1 = MAX_UINT64 - 2^63 = 2^63 - 1`. -/
theorem cutoff_matches_spec_formula (p : ℚ) (h0 : 0 ≤ p) (h1 : p ≤ 1) :
    hash64_proportion_cutoff p = cutoff_spec p := by
  simp only [hash64_proportion_cutoff, cutoff_spec, x_half, clip_1, clip_0,
    MAX_UINT64]
  norm_num

/-- Witness for Claim C3: the two formulas agree at `p = 1/2`. -/
theorem cutoff_matches_spec_formula_witness :
    ((0 : ℚ) ≤ 1 / 2 ∧ (1 / 2 : ℚ) ≤ 1) ∧
      hash64_proportion_cutoff (1 / 2) = cutoff_spec (1 / 2) :=
  ⟨⟨by norm_num, by norm_num⟩,
    cutoff_matches_spec_formula (1 / 2) (by norm_num) (by norm_num)⟩

/-- Claim C4: the cutoff function is monotone: for all proportions with
`0 ≤ p1 < p2 ≤ 1`, `hash64_proportion_cutoff p1 ≤
hash64_proportion_cutoff p2`. -/
theorem cutoff_monotone (p1 p2 : ℚ) (h0 : 0 ≤ p1) (h12 : p1 < p2)
    (h1 : p2 ≤ 1) :
    hash64_proportion_cutoff p1 ≤ hash64_proportion_cutoff p2 := by
  have hx : x_half p1 ≤ x_half p2 := by
    unfold x_half
    exact Int.toNat_le_toNat
      (Int.floor_le_floor (mul_le_mul_of_nonneg_right h12.le (by norm_num)))
  exact Nat.add_le_add (min_le_min le_rfl hx) (min_le_min le_rfl hx)

/-- Witness for Claim C4: monotone at the pair `(1/4, 3/4)`. -/
theorem cutoff_monotone_witness :
    ((0 : ℚ) ≤ 1 / 4 ∧ (1 / 4 : ℚ) < 3 / 4 ∧ (3 / 4 : ℚ) ≤ 1) ∧
      hash64_proportion_cutoff (1 / 4) ≤ hash64_proportion_cutoff (3 / 4) :=
  ⟨⟨by norm_num, by norm_num, by norm_num⟩,
    cutoff_monotone (1 / 4) (3 / 4) (by norm_num) (by norm_num) (by norm_num)⟩

/-- Claim C9: the final addition in the cutoff can never wrap: for every
64-bit value `x` of `x_half` (including values produced by out-of-range
proportions), `min(clip_0, x) + min(clip_1, x) ≤ MAX_UINT64`, so the sum
is unchanged by reduction modulo `2^64`. -/
theorem cutoff_sum_no_overflow (x : ℕ) (h : x < 2 ^ 64) :
    min clip_0 x + min clip_1 x ≤ MAX_UINT64 ∧
      (min clip_0 x + min clip_1 x) % 2 ^ 64 =
        min clip_0 x + min clip_1 x := by
  simp only [clip_1, clip_0, MAX_UINT64]
  constructor <;> omega

/-- Witness for Claim C9: no wrap at the extreme value `x = 2^64 - 1`. -/
theorem cutoff_sum_no_overflow_witness :
    2 ^ 64 - 1 < 2 ^ 64 ∧
      (min clip_0 (2 ^ 64 - 1) + min clip_1 (2 ^ 64 - 1) ≤ MAX_UINT64 ∧
        (min clip_0 (2 ^ 64 - 1) + min clip_1 (2 ^ 64 - 1)) % 2 ^ 64 =
          min clip_0 (2 ^ 64 - 1) + min clip_1 (2 ^ 64 - 1)) :=
  ⟨by norm_num, cutoff_sum_no_overflow (2 ^ 64 - 1) (by norm_num)⟩

/-- Claim C10: for every proportion `p ∈ [0, 1]` whose truncated
half-scaling `x_half p` is at most `2^63 - 1`, the cutoff equals exactly
`2 * x_half p`; hence every cutoff value is even except the saturated
result `MAX_UINT64`. -/
theorem cutoff_doubles_x_half (p : ℚ) (h0 : 0 ≤ p) (h1 : p ≤ 1) :
    (x_half p ≤ 2 ^ 63 - 1 → hash64_proportion_cutoff p = 2 * x_half p) ∧
      (hash64_proportion_cutoff p = MAX_UINT64 ∨
        2 ∣ hash64_proportion_cutoff p) := by
  have hub : x_half p ≤ 2 ^ 63 := by
    unfold x_half
    have hle : (p * 2 ^ 63 : ℚ) ≤ 2 ^ 63 := by nlinarith
    have := Int.floor_le_floor hle
    have hfl : ⌊(2 ^ 63 : ℚ)⌋ = 2 ^ 63 := by norm_num
    omega
  simp only [hash64_proportion_cutoff, clip_1, clip_0, MAX_UINT64]
  constructor
  · intro hlt; omega
  · omega

/-- Witness for Claim C10: at `p = 1/2` the cutoff is twice `x_half`,
and is even. -/
theorem cutoff_doubles_x_half_witness :
    ((0 : ℚ) ≤ 1 / 2 ∧ (1 / 2 : ℚ) ≤ 1) ∧
      ((x_half (1 / 2) ≤ 2 ^ 63 - 1 →
          hash64_proportion_cutoff (1 / 2) = 2 * x_half (1 / 2)) ∧
        (hash64_proportion_cutoff (1 / 2) = MAX_UINT64 ∨
          2 ∣ hash64_proportion_cutoff (1 / 2))) :=
  ⟨⟨by norm_num, by norm_num⟩,
    cutoff_doubles_x_half (1 / 2) (by norm_num) (by norm_num)⟩

/-- Claim C5: for every sequence and every choice of the external
primitives, the sequence hash `hash128_vector` equals the left fold that
starts from the hash of the element count and combines each element's
128-bit digest in order, exactly as the spec describes it. -/
theorem hash128_vector_eq_spec_fold (hash128Len : ℕ → ℕ)
    (combine : ℕ → ℕ → ℕ) (v : List FlexibleType) :
    hash128_vector hash128Len combine v =
      hash128_vector_spec hash128Len combine v :=
  (spec_loop_eq_foldl combine (hash128Len v.length) v).symm

/-- Claim C6: for every sequence and every choice of the external
primitives, the 64-bit sequence digest is the 128→64-bit reduction of the
128-bit sequence digest, not an independent computation. -/
theorem hash64_vector_from_hash128 (hash128Len : ℕ → ℕ)
    (combine : ℕ → ℕ → ℕ) (hash64Of128 : ℕ → ℕ) (v : List FlexibleType) :
    hash64_vector hash128Len combine hash64Of128 v =
      hash64Of128 (hash128_vector hash128Len combine v) := rfl

/-- Claim C7: the 128-bit hash of the empty sequence is exactly the hash
of the integer zero (the hashed element count), for every choice of the
external primitives. -/
theorem hash128_vector_nil (hash128Len : ℕ → ℕ) (combine : ℕ → ℕ → ℕ) :
    hash128_vector hash128Len combine [] = hash128Len 0 := rfl

/-- Claim C8: the single-value hashers are pure pass-throughs: `hash128`
returns `v.hash128()` unchanged and `hash64` returns `v.hash()`
unchanged. -/
theorem hash_value_passthrough (v : FlexibleType) :
    hash128_value v = v.hash128 ∧ hash64_value v = v.hash := ⟨rfl, rfl⟩

end CityHashGL
